import Mathlib

/-!
Shallow embedding of `src/src/lib.rs` (the `LotteryToken` Stylus contract) and
proofs of the specification claims about it.

Modelling conventions:
* `U256` values and addresses are `Nat`s; arithmetic that the EVM word type
  would wrap is taken modulo `2 ^ 256` explicitly.
* Contract storage is the structure `LotteryToken`; the `StorageMap` of
  recipients is a total function `Nat → Nat` whose default value `0` is the
  all-zero address, matching EVM storage semantics.
* External interaction is an `Env`: the caller address, the outcome of the
  Supra router's `generateRequest` call, and whether a given token `mint`
  call succeeds.
* Each operation returns its `Outcome` (success, a typed `Error`, or a Rust
  panic, which for `rng_list[0]` on an empty vector aborts the call), the
  post-state, the list of external calls issued, and the list of events
  (logs) emitted, in program order.
-/

namespace RngMint

/-- The modulus of the 256-bit EVM word type `U256`. -/
def U256MOD : Nat := 2 ^ 256

/-- `mint_range` in `_mint_random_amount`: the literal
`1000000000000000000000_u128` (`10 ^ 21`). -/
def MINT_RANGE : Nat := 1000000000000000000000

/-- The callback signature string passed to the Supra router by
`_request_randomness`. -/
def CALLBACK_SIG : String := "mintRandomAmount(uint256,uint256[])"

/-- The amount derivation performed by `_mint_random_amount`:
`(random_num % mint_range) + U256::from(1)` in `U256` arithmetic, hence the
outer reduction modulo `2 ^ 256`. -/
def derive (r : Nat) : Nat := (r % MINT_RANGE + 1) % U256MOD

/-- The contract's error enum (`enum Error` in the source). The spec refers
to `OnlySupraRouter` by the abstract name `UnauthorizedCaller`. -/
inductive Error
  | RandomnessRequestFailed
  | OnlySupraRouter
  | MintFailed
deriving DecidableEq, Repr

/-- Result of one entry-point invocation: `Ok`, a typed contract error, or a
Rust panic (an abort that is not a value of the contract's error enum). -/
inductive Outcome (α : Type)
  | ok (a : α)
  | err (e : Error)
  | panicked
deriving DecidableEq, Repr

/-- External calls issued by the contract, with their arguments. -/
inductive ExtCall
  | generateRequest (router : Nat) (functionSig : String) (rngCount : Nat)
      (numConfirmations : Nat) (clientWallet : Nat)
  | mint (token : Nat) (account : Nat) (value : Nat)
deriving DecidableEq, Repr

/-- Events (logs) emitted by the contract. -/
inductive Event
  | MintRequested (nonce : Nat) (toAddr : Nat)
  | Minted (nonce : Nat) (toAddr : Nat) (amount : Nat)
deriving DecidableEq, Repr

/-- The contract's storage: three configured addresses and the
`nonce → recipient` map (`mint_address`), total with default `0`. -/
structure LotteryToken where
  rng_token : Nat
  subscription_manager : Nat
  supra_router : Nat
  mint_address : Nat → Nat

/-- The external world for one invocation: the message sender, the result the
Supra router returns for `generateRequest`, and which token `mint` calls
succeed (keyed by token address, account, value). -/
structure Env where
  msg_sender : Nat
  generateRequest : Except Unit Nat
  mintOk : Nat → Nat → Nat → Bool

/-- `_init`: the constructor body — stores the three configured addresses. -/
def _init (rng_token subscription_manager supra_router : Nat)
    (s : LotteryToken) : LotteryToken :=
  { s with rng_token := rng_token, subscription_manager := subscription_manager,
           supra_router := supra_router }

/-- Storage of a freshly deployed contract: every slot zero, then `_init`. -/
def deploy (rng_token subscription_manager supra_router : Nat) : LotteryToken :=
  _init rng_token subscription_manager supra_router ⟨0, 0, 0, fun _ => 0⟩

/-- The single `generateRequest` call `_request_randomness` issues. -/
def reqCall (s : LotteryToken) : ExtCall :=
  ExtCall.generateRequest s.supra_router CALLBACK_SIG 1 1 s.subscription_manager

/-- `_request_randomness`: issues one `generateRequest` call to the configured
router with the callback signature, `rng_count = 1`, `num_confirmations = 1`
and the subscription manager as client wallet; maps an external failure to
`RandomnessRequestFailed`. -/
def _request_randomness (env : Env) (s : LotteryToken) :
    Outcome Nat × LotteryToken × List ExtCall :=
  match env.generateRequest with
  | Except.ok nonce => (Outcome.ok nonce, s, [reqCall s])
  | Except.error _ => (Outcome.err Error.RandomnessRequestFailed, s, [reqCall s])

/-- `_mint_to`: requests randomness; on success stores `nonce → toAddr` in
`mint_address` and emits `MintRequested`; on failure propagates the error with
no state change and no event. -/
def _mint_to (env : Env) (s : LotteryToken) (toAddr : Nat) :
    Outcome Unit × LotteryToken × List ExtCall × List Event :=
  match _request_randomness env s with
  | (Outcome.ok nonce, s1, calls) =>
      (Outcome.ok (),
       { s1 with mint_address := fun n => if n = nonce then toAddr else s1.mint_address n },
       calls, [Event.MintRequested nonce toAddr])
  | (Outcome.err e, s1, calls) => (Outcome.err e, s1, calls, [])
  | (Outcome.panicked, s1, calls) => (Outcome.panicked, s1, calls, [])

/-- `_mint_random_amount`: rejects non-router callers with `OnlySupraRouter`;
reads the recipient for `nonce` (default all-zero address); indexes
`rng_list[0]` — a Rust panic when the list is empty; derives the amount;
issues the token `mint` call; returns `MintFailed` when it fails, otherwise
emits `Minted`. -/
def _mint_random_amount (env : Env) (s : LotteryToken) (nonce : Nat)
    (rng_list : List Nat) : Outcome Unit × LotteryToken × List ExtCall × List Event :=
  if env.msg_sender ≠ s.supra_router then
    (Outcome.err Error.OnlySupraRouter, s, [], [])
  else
    let receiver := s.mint_address nonce
    match rng_list with
    | [] => (Outcome.panicked, s, [], [])
    | random_num :: _ =>
      let mint_amount := derive random_num
      if env.mintOk s.rng_token receiver mint_amount then
        (Outcome.ok (), s, [ExtCall.mint s.rng_token receiver mint_amount],
         [Event.Minted nonce receiver mint_amount])
      else
        (Outcome.err Error.MintFailed, s,
         [ExtCall.mint s.rng_token receiver mint_amount], [])

/-- A concrete storage state used by the witness theorems. -/
def s0 : LotteryToken := ⟨10, 20, 30, fun _ => 0⟩

/-- A concrete storage state with the entry `42 → 55` registered. -/
def s1 : LotteryToken := ⟨10, 20, 30, fun n => if n = 42 then 55 else 0⟩

/-- A concrete environment used by the witness theorems: sender `c`, router
response `gr`, all mint calls succeed iff `m`. -/
def mkEnv (c : Nat) (gr : Except Unit Nat) (m : Bool) : Env :=
  ⟨c, gr, fun _ _ _ => m⟩

/-- C1: invoked by the configured Supra router with an empty random-values
list, `_mint_random_amount` evaluates `rng_list[0]` out of bounds and panics
(aborts), with no mint, no external call, no event and no state change — it
does NOT return the explicit `MalformedFulfillment` error the spec requires;
no such variant exists in the contract's error enum. -/
theorem mint_random_amount_empty_rng_panics (env : Env) (s : LotteryToken)
    (nonce : Nat) (h : env.msg_sender = s.supra_router) :
    _mint_random_amount env s nonce [] = (Outcome.panicked, s, [], []) := by
  simp [_mint_random_amount, h]

/-- Witness for C1: the panic outcome at a concrete failing input. -/
theorem mint_random_amount_empty_rng_panics_witness :
    _mint_random_amount (mkEnv 30 (Except.ok 42) true) s0 7 [] =
      (Outcome.panicked, s0, [], []) :=
  mint_random_amount_empty_rng_panics (mkEnv 30 (Except.ok 42) true) s0 7 rfl

/-- C2: a caller other than the configured Supra router is rejected with
`OnlySupraRouter` (the spec's `UnauthorizedCaller`), for every nonce and every
random-values list (registered or not, empty or not); the state is returned
unchanged and no external call is issued and no event emitted. -/
theorem mint_random_amount_unauthorized (env : Env) (s : LotteryToken)
    (nonce : Nat) (rng_list : List Nat) (h : env.msg_sender ≠ s.supra_router) :
    _mint_random_amount env s nonce rng_list =
      (Outcome.err Error.OnlySupraRouter, s, [], []) := by
  simp [_mint_random_amount, h]

/-- Witness for C2: rejection of a concrete non-router caller. -/
theorem mint_random_amount_unauthorized_witness :
    _mint_random_amount (mkEnv 99 (Except.ok 42) true) s0 42 [7] =
      (Outcome.err Error.OnlySupraRouter, s0, [], []) :=
  mint_random_amount_unauthorized (mkEnv 99 (Except.ok 42) true) s0 42 [7]
    (by decide)

/-- C3: the mint-amount derivation is the total function
`r ↦ (r % 10^21) + 1`: the outer `% 2^256` of the `U256` addition never
truncates, the result lies in `[1, 10^21]`, `derive 0 = 1` and
`derive (10^21 - 1) = 10^21`. Determinism/purity holds because `derive` is a
function of its argument alone. -/
theorem derive_spec (r : Nat) :
    derive r = r % MINT_RANGE + 1 ∧
    1 ≤ derive r ∧ derive r ≤ MINT_RANGE ∧
    derive 0 = 1 ∧ derive (MINT_RANGE - 1) = MINT_RANGE := by
  have hpos : 0 < MINT_RANGE := by norm_num [MINT_RANGE]
  have hlt : r % MINT_RANGE < MINT_RANGE := Nat.mod_lt _ hpos
  have hwide : MINT_RANGE < U256MOD := by norm_num [MINT_RANGE, U256MOD]
  have hid : derive r = r % MINT_RANGE + 1 := by
    unfold derive
    exact Nat.mod_eq_of_lt (by omega)
  refine ⟨hid, by rw [hid]; omega, by rw [hid]; omega, ?_, ?_⟩
  · norm_num [derive, MINT_RANGE, U256MOD]
  · norm_num [derive, MINT_RANGE, U256MOD]

/-- C4: invoked by the router for a registered nonce with a non-empty
random-values list whose mint call succeeds, `_mint_random_amount` issues
exactly one external call — `mint(recipient, derive rng_list[0])` on the
configured token — and emits `Minted(nonce, recipient, amount)` with the same
recipient and amount, leaving the state unchanged. -/
theorem mint_random_amount_success (env : Env) (s : LotteryToken)
    (nonce r : Nat) (rest : List Nat) (recipient : Nat)
    (hs : env.msg_sender = s.supra_router)
    (hreg : s.mint_address nonce = recipient)
    (hm : env.mintOk s.rng_token recipient (derive r) = true) :
    _mint_random_amount env s nonce (r :: rest) =
      (Outcome.ok (), s, [ExtCall.mint s.rng_token recipient (derive r)],
       [Event.Minted nonce recipient (derive r)]) := by
  simp [_mint_random_amount, hs, hreg, hm]

/-- Witness for C4: the spec's scenario — registered entry `42 → 55`,
router delivers `[7]`, mint of `7 % 10^21 + 1 = 8` tokens to `55`. -/
theorem mint_random_amount_success_witness :
    _mint_random_amount (mkEnv 30 (Except.ok 42) true) s1 42 [7] =
      (Outcome.ok (), s1, [ExtCall.mint 10 55 8], [Event.Minted 42 55 8]) :=
  mint_random_amount_success (mkEnv 30 (Except.ok 42) true) s1 42 7 [] 55
    rfl rfl rfl

/-- C5: `_mint_to` for any caller: when the router call returns `nonce`, the
operation succeeds, registers exactly the entry `nonce → toAddr` (all other
entries and fields unchanged) and emits `MintRequested(nonce, toAddr)`; when
the router call fails, it returns `RandomnessRequestFailed`, the state is
unchanged and no event is emitted. -/
theorem mint_to_spec (env : Env) (s : LotteryToken) (toAddr : Nat) :
    (∀ nonce, env.generateRequest = Except.ok nonce →
      _mint_to env s toAddr =
        (Outcome.ok (),
         { s with mint_address := fun n => if n = nonce then toAddr else s.mint_address n },
         [reqCall s], [Event.MintRequested nonce toAddr])) ∧
    (env.generateRequest = Except.error () →
      _mint_to env s toAddr =
        (Outcome.err Error.RandomnessRequestFailed, s, [reqCall s], [])) := by
  constructor
  · intro nonce h
    simp [_mint_to, _request_randomness, h]
  · intro h
    simp [_mint_to, _request_randomness, h]

/-- Witness for C5: both branches at concrete inputs. -/
theorem mint_to_spec_witness :
    _mint_to (mkEnv 5 (Except.ok 42) true) s0 55 =
      (Outcome.ok (),
       { s0 with mint_address := fun n => if n = 42 then 55 else s0.mint_address n },
       [reqCall s0], [Event.MintRequested 42 55]) ∧
    _mint_to (mkEnv 5 (Except.error ()) true) s0 55 =
      (Outcome.err Error.RandomnessRequestFailed, s0, [reqCall s0], []) :=
  ⟨(mint_to_spec (mkEnv 5 (Except.ok 42) true) s0 55).1 42 rfl,
   (mint_to_spec (mkEnv 5 (Except.error ()) true) s0 55).2 rfl⟩

/-- C6: neither `_mint_to` nor `_mint_random_amount`, on any input and on any
success or failure path, changes the three configured addresses `rng_token`,
`subscription_manager` and `supra_router`. -/
theorem config_immutable (env : Env) (s : LotteryToken) (toAddr nonce : Nat)
    (rng_list : List Nat) :
    ((_mint_to env s toAddr).2.1.rng_token = s.rng_token ∧
     (_mint_to env s toAddr).2.1.subscription_manager = s.subscription_manager ∧
     (_mint_to env s toAddr).2.1.supra_router = s.supra_router) ∧
    ((_mint_random_amount env s nonce rng_list).2.1.rng_token = s.rng_token ∧
     (_mint_random_amount env s nonce rng_list).2.1.subscription_manager
        = s.subscription_manager ∧
     (_mint_random_amount env s nonce rng_list).2.1.supra_router
        = s.supra_router) := by
  constructor
  · unfold _mint_to _request_randomness
    cases env.generateRequest <;> simp
  · unfold _mint_random_amount
    by_cases h : env.msg_sender ≠ s.supra_router
    · simp [h]
    · cases rng_list
      · simp [h]
      · simp [h]
        split <;> simp

/-- C7: an absent registry entry reads as the all-zero address (shown on a
freshly deployed state for every nonce), and `_mint_random_amount` called by
the router on such a nonce with a non-empty list does not abort on the lookup:
it proceeds to issue the token `mint` call with the zero address as
recipient. -/
theorem unregistered_nonce_mints_to_zero (env : Env) (s : LotteryToken)
    (t m o nonce r : Nat) (rest : List Nat)
    (hs : env.msg_sender = s.supra_router)
    (h0 : s.mint_address nonce = 0) :
    (deploy t m o).mint_address nonce = 0 ∧
    (_mint_random_amount env s nonce (r :: rest)).1 ≠ Outcome.panicked ∧
    (_mint_random_amount env s nonce (r :: rest)).1
        ≠ Outcome.err Error.OnlySupraRouter ∧
    (_mint_random_amount env s nonce (r :: rest)).2.2.1 =
      [ExtCall.mint s.rng_token 0 (derive r)] := by
  refine ⟨rfl, ?_⟩
  have hmain : _mint_random_amount env s nonce (r :: rest) =
      if env.mintOk s.rng_token (s.mint_address nonce) (derive r) then
        (Outcome.ok (), s,
         [ExtCall.mint s.rng_token (s.mint_address nonce) (derive r)],
         [Event.Minted nonce (s.mint_address nonce) (derive r)])
      else
        (Outcome.err Error.MintFailed, s,
         [ExtCall.mint s.rng_token (s.mint_address nonce) (derive r)], []) := by
    simp [_mint_random_amount, hs]
  rw [hmain, h0]
  split <;> simp

/-- Witness for C7: the zero-address mint call at a concrete input. -/
theorem unregistered_nonce_mints_to_zero_witness :
    (deploy 10 20 30).mint_address 9 = 0 ∧
    (_mint_random_amount (mkEnv 30 (Except.ok 42) true) s0 9 [7]).1
        ≠ Outcome.panicked ∧
    (_mint_random_amount (mkEnv 30 (Except.ok 42) true) s0 9 [7]).1
        ≠ Outcome.err Error.OnlySupraRouter ∧
    (_mint_random_amount (mkEnv 30 (Except.ok 42) true) s0 9 [7]).2.2.1 =
      [ExtCall.mint 10 0 8] :=
  unregistered_nonce_mints_to_zero (mkEnv 30 (Except.ok 42) true) s0
    10 20 30 9 7 [] rfl rfl

/-- C8: when the token `mint` call fails, `_mint_random_amount` returns
`MintFailed` to its caller, emits no `Minted` event, and leaves the state —
in particular the `nonce → recipient` registry entry — exactly as it was. -/
theorem mint_failed_surfaces (env : Env) (s : LotteryToken) (nonce r : Nat)
    (rest : List Nat) (hs : env.msg_sender = s.supra_router)
    (hm : env.mintOk s.rng_token (s.mint_address nonce) (derive r) = false) :
    _mint_random_amount env s nonce (r :: rest) =
      (Outcome.err Error.MintFailed, s,
       [ExtCall.mint s.rng_token (s.mint_address nonce) (derive r)], []) := by
  simp [_mint_random_amount, hs, hm]

/-- Witness for C8: a concrete failing mint. -/
theorem mint_failed_surfaces_witness :
    _mint_random_amount (mkEnv 30 (Except.ok 42) false) s1 42 [7] =
      (Outcome.err Error.MintFailed, s1, [ExtCall.mint 10 55 8], []) :=
  mint_failed_surfaces (mkEnv 30 (Except.ok 42) false) s1 42 7 [] rfl rfl

/-- C9: a successful `_mint_random_amount` leaves the entire state — hence
every registry entry — unchanged, so a second router invocation with the same
nonce and a fresh random value succeeds again, minting to the same recipient
the amount derived from the newly supplied first random value. -/
theorem fulfilled_nonce_not_cleared (env env2 : Env) (s : LotteryToken)
    (nonce r r2 : Nat) (rest rest2 : List Nat)
    (hs : env.msg_sender = s.supra_router)
    (hm : env.mintOk s.rng_token (s.mint_address nonce) (derive r) = true)
    (hs2 : env2.msg_sender = s.supra_router)
    (hm2 : env2.mintOk s.rng_token (s.mint_address nonce) (derive r2) = true) :
    (_mint_random_amount env s nonce (r :: rest)).2.1 = s ∧
    _mint_random_amount env2 (_mint_random_amount env s nonce (r :: rest)).2.1
        nonce (r2 :: rest2) =
      (Outcome.ok (), s,
       [ExtCall.mint s.rng_token (s.mint_address nonce) (derive r2)],
       [Event.Minted nonce (s.mint_address nonce) (derive r2)]) := by
  have h1 : (_mint_random_amount env s nonce (r :: rest)).2.1 = s := by
    simp [_mint_random_amount, hs, hm]
  refine ⟨h1, ?_⟩
  rw [h1]
  simp [_mint_random_amount, hs2, hm2]

/-- Witness for C9: two fulfillments of nonce `42` mint `8` then `10` tokens
to the same recipient `55`. -/
theorem fulfilled_nonce_not_cleared_witness :
    (_mint_random_amount (mkEnv 30 (Except.ok 42) true) s1 42 [7]).2.1 = s1 ∧
    _mint_random_amount (mkEnv 30 (Except.ok 42) true)
        (_mint_random_amount (mkEnv 30 (Except.ok 42) true) s1 42 [7]).2.1
        42 [9] =
      (Outcome.ok (), s1, [ExtCall.mint 10 55 10], [Event.Minted 42 55 10]) :=
  fulfilled_nonce_not_cleared (mkEnv 30 (Except.ok 42) true)
    (mkEnv 30 (Except.ok 42) true) s1 42 7 9 [] [] rfl rfl rfl rfl

/-- C10: every invocation of `_mint_to` issues exactly one external call — to
the configured router's `generateRequest` with the callback signature
`"mintRandomAmount(uint256,uint256[])"`, `rng_count = 1`,
`num_confirmations = 1` and the configured subscription manager as client
wallet — whether or not that call succeeds; on success the oracle-assigned
nonce is returned by the request step and keys the new registry entry. -/
theorem mint_to_single_oracle_call (env : Env) (s : LotteryToken)
    (toAddr nonce : Nat) :
    (_mint_to env s toAddr).2.2.1 =
      [ExtCall.generateRequest s.supra_router CALLBACK_SIG 1 1
        s.subscription_manager] ∧
    (env.generateRequest = Except.ok nonce →
      (_request_randomness env s).1 = Outcome.ok nonce ∧
      (_mint_to env s toAddr).2.1.mint_address nonce = toAddr) := by
  constructor
  · unfold _mint_to _request_randomness reqCall
    cases env.generateRequest <;> simp
  · intro h
    constructor
    · simp [_request_randomness, h]
    · simp [_mint_to, _request_randomness, h]

/-- Witness for C10: the single request call and the returned nonce at a
concrete input. -/
theorem mint_to_single_oracle_call_witness :
    (_mint_to (mkEnv 5 (Except.ok 42) true) s0 55).2.2.1 =
      [ExtCall.generateRequest 30 CALLBACK_SIG 1 1 20] ∧
    ((_request_randomness (mkEnv 5 (Except.ok 42) true) s0).1 = Outcome.ok 42 ∧
     (_mint_to (mkEnv 5 (Except.ok 42) true) s0 55).2.1.mint_address 42 = 55) :=
  ⟨(mint_to_single_oracle_call (mkEnv 5 (Except.ok 42) true) s0 55 42).1,
   (mint_to_single_oracle_call (mkEnv 5 (Except.ok 42) true) s0 55 42).2 rfl⟩

end RngMint
